import Mathlib

/-!
Shallow embedding of the products REST API (Express + express-validator +
Sequelize backend, TypeScript).  The router `src/router.ts` attaches, per
route, a list of express-validator chains followed by the `handleInputErrors`
middleware and one resource handler.  This file embeds:

* the JSON values a request body can carry for the three relevant fields,
* the express-validator standard validators used by the router
  (`isInt`, `notEmpty`, `isNumeric`, `isBoolean`) as executable predicates on
  the string coercion of the field value, exactly as validator.js implements
  them,
* the custom validator `value => value > 0` with JavaScript numeric coercion
  of the raw value (`ToNumber` on strings, including whitespace trimming,
  signed decimal/exponent literals, `Infinity`, and hex/octal/binary forms),
* the six routes with their declared validation chains and literal Spanish
  error messages from `src/router.ts`,
* the resource handlers and the error-collecting middleware, modelled from
  the specification (their files are imported by the router but absent from
  the sources), with response body literals pinned by the repository's own
  test suite,
* the CORS origin gate from `src/server.ts`.
-/

/-- A JSON value that a request body field can hold.  JSON numbers are
modelled as integers, which covers every numeric literal exercised by the
claims and the repository's tests. -/
inductive JsVal where
  | str (s : String)
  | num (n : Int)
  | boolean (b : Bool)
deriving DecidableEq

/-- The request body fields read by any validator or handler of the router:
`name`, `price` and `availability`.  `none` models an absent field
(JavaScript `undefined`). -/
structure ReqBody where
  name : Option JsVal
  price : Option JsVal
  availability : Option JsVal
deriving DecidableEq

/-- A stored Product row: `id` (assigned by storage), `name`, `price`,
`availability`.  The persistence collaborator coerces stored values; claims
never inspect a stored `price`, which is kept as an integer. -/
structure Product where
  id : Int
  name : String
  price : Int
  availability : Bool
deriving DecidableEq

/-- The response body shapes produced by the API: a 400 validation payload
`\x7berrors: [\x7bmsg\x7d...]\x7d` (represented by its ordered message list), an error
object `\x7berror: msg\x7d`, or a `data` payload holding a product, a literal
string, or a product list. -/
inductive RespBody where
  | errors (msgs : List String)
  | errorMsg (msg : String)
  | dataProduct (p : Product)
  | dataMsg (s : String)
  | dataList (ps : List Product)
deriving DecidableEq

/-- An HTTP response: status code and JSON body. -/
structure Response where
  status : Nat
  body : RespBody
deriving DecidableEq

/-! ## Literal message strings of `src/router.ts` and of the handlers
as pinned by the repository's test suite. -/

/-- Message of `param('id').isInt().withMessage(...)` in `src/router.ts`. -/
def idMsg : String := "Id no válido"

/-- Message of `body('name').notEmpty().withMessage(...)`. -/
def nameMsg : String := "El nombre del producto no puede ir vacío"

/-- Message of `body('price').isNumeric().withMessage(...)`. -/
def priceNumericMsg : String := "Valor no válido"

/-- Message of `body('price')....notEmpty().withMessage(...)`. -/
def priceEmptyMsg : String := "El precio del producto no puede ir vacío"

/-- Message of `body('price')....custom(value => value > 0).withMessage(...)`. -/
def priceGtMsg : String := "El precio del producto no es válido"

/-- Message of `body('availability').isBoolean().withMessage(...)`. -/
def availMsg : String := "Valor para disponibilidad no válido"

/-- Not-found body string, asserted by the repository's tests
(`response.body.error` equals this literal). -/
def notFoundMsg : String := "Producto no encontrado"

/-- Delete confirmation string, asserted by the repository's tests
(`response.body.data` equals this literal). -/
def deletedMsg : String := "Producto eliminado"

/-- Message of the Error passed to the CORS callback in `src/server.ts`. -/
def corsErrMsg : String := "Error de cors"

/-! ## String coercion and the validator.js predicates -/

/-- Numeric value of an ASCII digit character. -/
def digVal (c : Char) : Nat := c.toNat - 48

/-- Value of a list of ASCII decimal digits. -/
def digitsToNat (ds : List Char) : Nat :=
  ds.foldl (fun a c => a * 10 + digVal c) 0

/-- express-validator coerces a field value to a string before running a
standard validator: `undefined` becomes the empty string, numbers and
booleans are stringified, strings pass through. -/
def fieldToString : Option JsVal → String
  | none => ""
  | some (.str s) => s
  | some (.num n) => toString n
  | some (.boolean b) => if b then "true" else "false"

/-- validator.js `isInt` with default options: an optional sign followed by
one or more ASCII digits (leading zeroes allowed). -/
def isIntStr (s : String) : Bool :=
  let cs := match s.toList with
    | '+' :: r => r
    | '-' :: r => r
    | r => r
  !cs.isEmpty && cs.all (·.isDigit)

/-- Parse a path parameter that passed `isInt` to the integer the
persistence collaborator looks up: an optional sign and decimal digits. -/
def parseIntStr (s : String) : Int :=
  match s.toList with
  | '-' :: r => -(digitsToNat r : Int)
  | '+' :: r => (digitsToNat r : Int)
  | r => (digitsToNat r : Int)

/-- validator.js `isNumeric` with default options: an optional sign, an
optional run of digits terminated by a decimal point, then one or more
digits.  No exponent, no surrounding whitespace, no hex. -/
def isNumericStr (s : String) : Bool :=
  let cs := match s.toList with
    | '+' :: r => r
    | '-' :: r => r
    | r => r
  let sp := cs.span (·.isDigit)
  match sp.2 with
  | [] => !sp.1.isEmpty
  | '.' :: r => !r.isEmpty && r.all (·.isDigit)
  | _ => false

/-- validator.js `isEmpty` with default options checks string length zero;
`notEmpty` is its negation, applied to the coerced field value. -/
def notEmptyCheck (v : Option JsVal) : Bool :=
  (fieldToString v).length != 0

/-- validator.js `isBoolean` with default (strict) options accepts exactly
the strings "true", "false", "1" and "0". -/
def isBooleanStr (s : String) : Bool :=
  s = "true" || s = "false" || s = "1" || s = "0"

/-! ## JavaScript numeric coercion of a string (`ToNumber`) -/

/-- The JavaScript whitespace and line-terminator characters trimmed by
`ToNumber` on strings. -/
def isJsSpace (c : Char) : Bool :=
  c = ' ' || c = '\t' || c = '\n' || c = '\r' || c = '\x0B' || c = '\x0C' ||
  c = '\u00A0' || c = '\u1680' || ('\u2000' ≤ c && c ≤ '\u200A') ||
  c = '\u2028' || c = '\u2029' || c = '\u202F' || c = '\u205F' ||
  c = '\u3000' || c = '\uFEFF'

/-- Trim JavaScript whitespace from both ends of a character list. -/
def trimJs (cs : List Char) : List Char :=
  ((cs.dropWhile isJsSpace).reverse.dropWhile isJsSpace).reverse

/-- The result of JavaScript `ToNumber` on a string, keeping exactly the
information the embedded code consumes: NaN, signed infinity, or a finite
value represented exactly as `mant * 10 ^ exp10` (sign carried by `mant`). -/
inductive JsNum where
  | nan
  | posInf
  | negInf
  | finite (mant : Int) (exp10 : Int)
deriving DecidableEq

/-- Whether a `JsNum` is strictly greater than zero (JavaScript `x > 0`
after coercion; NaN compares false). -/
def JsNum.isPos : JsNum → Bool
  | .posInf => true
  | .finite m _ => decide (0 < m)
  | _ => false

/-- Read a decimal exponent part: the remainder of the literal must be
empty or `(e|E) sign? digits`; returns the exponent value. -/
def readExp : List Char → Option Int
  | [] => some 0
  | c :: rest =>
    if c = 'e' || c = 'E' then
      match rest with
      | '+' :: r =>
        let sp := r.span (·.isDigit)
        if !sp.1.isEmpty && sp.2.isEmpty then some (digitsToNat sp.1) else none
      | '-' :: r =>
        let sp := r.span (·.isDigit)
        if !sp.1.isEmpty && sp.2.isEmpty then some (-(digitsToNat sp.1 : Int)) else none
      | r =>
        let sp := r.span (·.isDigit)
        if !sp.1.isEmpty && sp.2.isEmpty then some (digitsToNat sp.1) else none
    else none

/-- Read an unsigned decimal numeric literal `digits ('.' digits?)? exp?`
or `'.' digits exp?`, consuming the whole input; the value is
`mant * 10 ^ exp10`. -/
def readUnsignedDec (cs : List Char) : Option (Nat × Int) :=
  let ip := cs.span (·.isDigit)
  match ip.2 with
  | '.' :: r2 =>
    let fp := r2.span (·.isDigit)
    if ip.1.isEmpty && fp.1.isEmpty then none
    else
      match readExp fp.2 with
      | some e => some (digitsToNat ip.1 * 10 ^ fp.1.length + digitsToNat fp.1,
                        e - (fp.1.length : Int))
      | none => none
  | r =>
    if ip.1.isEmpty then none
    else
      match readExp r with
      | some e => some (digitsToNat ip.1, e)
      | none => none

/-- Evaluate an optionally negated unsigned decimal part, also accepting
the literal `Infinity`. -/
def signedPart (cs : List Char) (neg : Bool) : JsNum :=
  if cs = "Infinity".toList then (if neg then .negInf else .posInf)
  else
    match readUnsignedDec cs with
    | some me =>
      .finite (if neg then -(me.1 : Int) else (me.1 : Int)) me.2
    | none => .nan

/-- Is an ASCII hexadecimal digit. -/
def isHexDig (c : Char) : Bool :=
  c.isDigit || ('a' ≤ c && c ≤ 'f') || ('A' ≤ c && c ≤ 'F')

/-- Value of an ASCII hexadecimal digit. -/
def hexVal (c : Char) : Nat :=
  if c.isDigit then digVal c
  else if 'a' ≤ c && c ≤ 'f' then c.toNat - 87
  else c.toNat - 55

/-- Evaluate a radix-prefixed literal body (`0x`, `0o`, `0b` forms, no
sign allowed): every remaining character must be a digit of the radix. -/
def radixNum (base : Nat) (ok : Char → Bool) (v : Char → Nat) (cs : List Char) : JsNum :=
  if !cs.isEmpty && cs.all ok then
    .finite ((cs.foldl (fun a c => a * base + v c) 0 : Nat) : Int) 0
  else .nan

/-- JavaScript `ToNumber` of a string: trim JS whitespace; empty means 0;
otherwise a `StringNumericLiteral`: optional sign with a decimal literal or
`Infinity`, or an unsigned hex/octal/binary literal; anything else is NaN. -/
def jsToNumber (s : String) : JsNum :=
  match trimJs s.toList with
  | [] => .finite 0 0
  | '+' :: r => signedPart r false
  | '-' :: r => signedPart r true
  | '0' :: c :: r =>
    if c = 'x' || c = 'X' then radixNum 16 isHexDig hexVal r
    else if c = 'o' || c = 'O' then radixNum 8 (fun d => '0' ≤ d && d ≤ '7') digVal r
    else if c = 'b' || c = 'B' then radixNum 2 (fun d => d = '0' || d = '1') digVal r
    else signedPart ('0' :: c :: r) false
  | cs => signedPart cs false

/-- The custom validator `value => value > 0` of the price chain receives
the raw field value: `undefined > 0` is false (NaN), numbers compare
directly, booleans coerce to 1/0, strings go through `ToNumber`. -/
def jsGtZero : Option JsVal → Bool
  | none => false
  | some (.num n) => decide (0 < n)
  | some (.boolean b) => b
  | some (.str s) => (jsToNumber s).isPos

/-! ## The validation chains declared in `src/router.ts` -/

/-- Errors of the chain `param('id').isInt().withMessage('Id no válido')`. -/
def idErrors (idStr : String) : List String :=
  if isIntStr idStr then [] else [idMsg]

/-- Errors of the chain `body('name').notEmpty().withMessage(...)`. -/
def nameErrors (v : Option JsVal) : List String :=
  if notEmptyCheck v then [] else [nameMsg]

/-- Errors of the chain
`body('price').isNumeric().withMessage(...).notEmpty().withMessage(...)
.custom(value => value > 0).withMessage(...)`; the three validators all run
(express-validator does not bail) and report in declaration order. -/
def priceErrors (v : Option JsVal) : List String :=
  (if isNumericStr (fieldToString v) then [] else [priceNumericMsg]) ++
  (if notEmptyCheck v then [] else [priceEmptyMsg]) ++
  (if jsGtZero v then [] else [priceGtMsg])

/-- Errors of the chain `body('availability').isBoolean().withMessage(...)`
(attached only on the PUT route). -/
def availErrors (v : Option JsVal) : List String :=
  if isBooleanStr (fieldToString v) then [] else [availMsg]

/-! ## Persistence and handlers

The handler module `src/handlers/product.ts` and the middleware module are
imported by the router but are not among the sources; they are modelled from
the specification (sections 4.1 and 4.2), with every literal response string
pinned by the repository's test suite. -/

/-- Next id assigned by storage: one more than the largest stored id. -/
def nextId (st : List Product) : Int :=
  st.foldl (fun a p => max a p.id) 0 + 1

/-- Fetch a row by primary key: the first stored product with that id. -/
def findByPk (i : Int) (st : List Product) : Option Product :=
  st.find? (fun p => p.id = i)

/-- Replace the stored row(s) carrying the given id. -/
def updateById (i : Int) (p2 : Product) (st : List Product) : List Product :=
  st.map (fun q => if q.id = i then p2 else q)

/-- Coercion of a validated body value to a stored integer (the persistence
collaborator casts bound values; no claim inspects the result). -/
def jsValInt : Option JsVal → Int
  | some (.num n) => n
  | some (.boolean b) => if b then 1 else 0
  | some (.str s) =>
    match jsToNumber s with
    | .finite m e => if 0 ≤ e then m * (10 ^ e.toNat : Nat) else m / (10 ^ (-e).toNat : Nat)
    | _ => 0
  | none => 0

/-- Coercion of a validated body value to a stored boolean. -/
def jsValBool : Option JsVal → Bool
  | some (.boolean b) => b
  | some (.str s) => s = "true" || s = "1"
  | some (.num n) => n != 0
  | none => false

/-- Insert a product into a list sorted by ascending id. -/
def insertById (p : Product) : List Product → List Product
  | [] => [p]
  | q :: r => if p.id ≤ q.id then p :: q :: r else q :: insertById p r

/-- Sort a product list by ascending id (the List handler's ORDER BY). -/
def sortById : List Product → List Product
  | [] => []
  | p :: r => insertById p (sortById r)

/-- Modelled from the spec: `getProducts` in the missing handler module
`src/handlers/product.ts` — fetch all rows ordered by id ascending and
respond 200 with the data list. -/
def getProducts (st : List Product) : Response × List Product :=
  (⟨200, .dataList (sortById st)⟩, st)

/-- Modelled from the spec: `getProductByID` in the missing handler module —
fetch the row by id; absent means 404 with the not-found body (string pinned
by the repository's tests), else 200 with the row. -/
def getProductByID (i : Int) (st : List Product) : Response × List Product :=
  match findByPk i st with
  | none => (⟨404, .errorMsg notFoundMsg⟩, st)
  | some p => (⟨200, .dataProduct p⟩, st)

/-- Modelled from the spec: `createProduct` in the missing handler module —
construct a row from the validated body (availability defaults true), let
storage assign the id, respond 201 with the created row. -/
def createProduct (b : ReqBody) (st : List Product) : Response × List Product :=
  let p : Product := ⟨nextId st, fieldToString b.name, jsValInt b.price, true⟩
  (⟨201, .dataProduct p⟩, st ++ [p])

/-- Modelled from the spec: `updateProduct` in the missing handler module —
fetch by id; absent means 404, else overwrite name, price and availability
from the body, persist and respond 200 with the updated row. -/
def updateProduct (i : Int) (b : ReqBody) (st : List Product) : Response × List Product :=
  match findByPk i st with
  | none => (⟨404, .errorMsg notFoundMsg⟩, st)
  | some p =>
    let p2 : Product :=
      { p with name := fieldToString b.name, price := jsValInt b.price,
               availability := jsValBool b.availability }
    (⟨200, .dataProduct p2⟩, updateById i p2 st)

/-- Modelled from the spec: `updateAvailability` in the missing handler
module — fetch by id; absent means 404, else flip the boolean availability
field (logical NOT of the stored value), persist and respond 200 with the
updated row.  The request body is never read. -/
def updateAvailability (i : Int) (st : List Product) : Response × List Product :=
  match findByPk i st with
  | none => (⟨404, .errorMsg notFoundMsg⟩, st)
  | some p =>
    let p2 : Product := { p with availability := !p.availability }
    (⟨200, .dataProduct p2⟩, updateById i p2 st)

/-- Modelled from the spec: `deleteProduct` in the missing handler module —
fetch by id; absent means 404, else remove the row and respond 200 with the
confirmation string (pinned by the repository's tests). -/
def deleteProduct (i : Int) (st : List Product) : Response × List Product :=
  match findByPk i st with
  | none => (⟨404, .errorMsg notFoundMsg⟩, st)
  | some _ => (⟨200, .dataMsg deletedMsg⟩, st.filter (fun p => ¬ (p.id = i)))

/-- Modelled from the spec: the `handleInputErrors` middleware in the
missing middleware module — given the ordered failures collected by the
declared validator chains, short-circuit with 400 and the full error list
when any rule failed, else pass control to the handler unchanged. -/
def handleInputErrors (errs : List String)
    (next : List Product → Response × List Product)
    (st : List Product) : Response × List Product :=
  if errs.isEmpty then next st else (⟨400, .errors errs⟩, st)

/-! ## The routes of `src/router.ts`

Each route runs its declared validator chains in attachment order, then
`handleInputErrors`, then its handler. -/

/-- `router.get('/:id')`: the id chain, the middleware, `getProductByID`. -/
def getByIdRoute (idStr : String) (st : List Product) : Response × List Product :=
  handleInputErrors (idErrors idStr) (getProductByID (parseIntStr idStr)) st

/-- `router.post('/')`: the name and price chains, the middleware,
`createProduct`. -/
def createRoute (b : ReqBody) (st : List Product) : Response × List Product :=
  handleInputErrors (nameErrors b.name ++ priceErrors b.price) (createProduct b) st

/-- `router.put('/:id')`: the id, name, price and availability chains, the
middleware, `updateProduct`. -/
def putRoute (idStr : String) (b : ReqBody) (st : List Product) : Response × List Product :=
  handleInputErrors
    (idErrors idStr ++ nameErrors b.name ++ priceErrors b.price ++ availErrors b.availability)
    (updateProduct (parseIntStr idStr) b) st

/-- `router.patch('/:id')`: the id chain only, the middleware,
`updateAvailability`; no body validator is attached and the handler reads
only the path parameter. -/
def patchRoute (idStr : String) (st : List Product) : Response × List Product :=
  handleInputErrors (idErrors idStr) (updateAvailability (parseIntStr idStr)) st

/-- `router.delete('/:id')`: the id chain, the middleware, `deleteProduct`. -/
def deleteRoute (idStr : String) (st : List Product) : Response × List Product :=
  handleInputErrors (idErrors idStr) (deleteProduct (parseIntStr idStr)) st

/-- A request reaching the `/api/products` router: the HTTP verb and path
shape together with the raw path parameter and parsed JSON body. -/
inductive Request where
  | list
  | getById (idStr : String)
  | create (b : ReqBody)
  | update (idStr : String) (b : ReqBody)
  | patchAvail (idStr : String) (b : ReqBody)
  | deleteById (idStr : String)

/-- Dispatch of a matched route.  The PATCH route drops the request body:
`src/router.ts` attaches no body validator to it and `updateAvailability`
reads only the path parameter. -/
def routeDispatch : Request → List Product → Response × List Product
  | .list, st => getProducts st
  | .getById s, st => getByIdRoute s st
  | .create b, st => createRoute b st
  | .update s b, st => putRoute s b st
  | .patchAvail s _, st => patchRoute s st
  | .deleteById s, st => deleteRoute s st

/-! ## The CORS gate of `src/server.ts` -/

/-- The outcome of a request at the server: rejected by the CORS middleware
(the origin callback was invoked with an Error, so the request never reaches
the router), or handled by the router with a response and resulting store. -/
inductive ServerOutcome where
  | rejected (msg : String)
  | handled (resp : Response) (st : List Product)
deriving DecidableEq

/-- The `corsOptions.origin` function of `src/server.ts`: the callback is
invoked with success exactly when the request's Origin header (undefined
when absent) is strictly equal to the FRONTEND_URL environment variable
(undefined when unset); otherwise it is invoked with
`new Error('Error de cors')`. -/
def corsOriginAllowed (origin frontendUrl : Option String) : Bool :=
  origin = frontendUrl

/-- The server pipeline of `src/server.ts`: the CORS middleware is installed
before the router, so a request whose origin check fails is rejected before
any routing; otherwise the router handles it. -/
def serverHandle (frontendUrl origin : Option String) (req : Request)
    (st : List Product) : ServerOutcome :=
  if corsOriginAllowed origin frontendUrl then
    let r := routeDispatch req st
    .handled r.1 r.2
  else .rejected corsErrMsg

/-! ## Helper lemmas -/

/-- A non-empty string passes the express-validator `notEmpty` check. -/
theorem notEmptyCheck_str (s : String) (h : s ≠ "") :
    notEmptyCheck (some (.str s)) = true := by
  obtain ⟨data⟩ := s
  cases data with
  | nil => exact absurd rfl h
  | cons c cs => simp [notEmptyCheck, fieldToString, String.length]

/-- The row found by primary key satisfies the key equation. -/
theorem findByPk_id (i : Int) (st : List Product) (p : Product)
    (hf : findByPk i st = some p) : p.id = i := by
  have := List.find?_some hf
  exact of_decide_eq_true this

/-- After replacing the rows carrying an id that is present, a lookup of
that id finds the replacement. -/
theorem findByPk_updateById (i : Int) (p p2 : Product) (st : List Product)
    (hf : findByPk i st = some p) (hp2 : p2.id = i) :
    findByPk i (updateById i p2 st) = some p2 := by
  induction st with
  | nil => simp [findByPk] at hf
  | cons q r ih =>
    unfold findByPk at hf
    unfold findByPk updateById
    rw [List.map_cons]
    by_cases h : q.id = i
    · rw [if_pos h, List.find?_cons_of_pos _ (by simp [hp2])]
    · rw [if_neg h, List.find?_cons_of_neg _ (by simp [h])]
      rw [List.find?_cons_of_neg _ (by simp [h])] at hf
      exact ih hf

/-- After filtering out the rows carrying an id, a lookup of that id finds
nothing. -/
theorem findByPk_filter_ne (i : Int) (st : List Product) :
    findByPk i (st.filter (fun q => !decide (q.id = i))) = none := by
  rw [findByPk, List.find?_eq_none]
  intro x hx
  have := (List.mem_filter.mp hx).2
  simpa using this

/-- The name chain on an absent field reports its single message. -/
theorem nameErrors_none : nameErrors none = [nameMsg] := by decide

/-- The price chain on an absent field reports all three of its messages. -/
theorem priceErrors_none :
    priceErrors none = [priceNumericMsg, priceEmptyMsg, priceGtMsg] := by decide

/-- The availability chain on an absent field reports its single message. -/
theorem availErrors_none : availErrors none = [availMsg] := by decide

/-- The price chain on the number 0 reports only the greater-than-zero
message. -/
theorem priceErrors_zero : priceErrors (some (.num 0)) = [priceGtMsg] := by decide

/-! ## Claims -/

/-- C1 counterexample: on a non-integer id the single reported message is
the router's literal "Id no válido", not "Invalid id"; moreover a PUT whose
body also fails its rules reports the id error together with the body
errors, so its error list is not a single entry. -/
theorem invalid_id_message_counterexample :
    (getByIdRoute "not-valid-url" []).1 = ⟨400, .errors [idMsg]⟩ ∧
    idMsg ≠ "Invalid id" ∧
    (putRoute "not-valid-url" ⟨none, none, none⟩ []).1 =
      ⟨400, .errors [idMsg, nameMsg, priceNumericMsg, priceEmptyMsg, priceGtMsg, availMsg]⟩ := by
  decide

/-- C1 (amended): for every GET/PUT/PATCH/DELETE request on `/:id` whose id
does not pass the integer check, the response is 400, the store is
unchanged and the handler is never invoked; the error list of GET, PATCH
and DELETE is exactly one entry with message "Id no válido", while PUT
appends its body-rule failures after that entry (a single entry exactly
when the body rules all pass). -/
theorem invalid_id_rejects_before_handler (idStr : String) (b : ReqBody)
    (st : List Product) (h : isIntStr idStr = false) :
    getByIdRoute idStr st = (⟨400, .errors [idMsg]⟩, st) ∧
    patchRoute idStr st = (⟨400, .errors [idMsg]⟩, st) ∧
    deleteRoute idStr st = (⟨400, .errors [idMsg]⟩, st) ∧
    putRoute idStr b st =
      (⟨400, .errors (idMsg ::
        (nameErrors b.name ++ priceErrors b.price ++ availErrors b.availability))⟩, st) := by
  refine ⟨?_, ?_, ?_, ?_⟩ <;>
    simp [getByIdRoute, patchRoute, deleteRoute, putRoute, handleInputErrors, idErrors, h]

/-- C1 witness: the test suite's concrete URL `/api/products/not-valid-url`. -/
theorem invalid_id_rejects_before_handler_witness :
    isIntStr "not-valid-url" = false ∧
    getByIdRoute "not-valid-url" [] = (⟨400, .errors [idMsg]⟩, []) :=
  ⟨by decide,
   (invalid_id_rejects_before_handler "not-valid-url" ⟨none, none, none⟩ [] (by decide)).1⟩

/-- C2 counterexample: the not-found body of the code (pinned by the
repository's tests) is the literal "Producto no encontrado", not
"Product not found". -/
theorem not_found_body_counterexample :
    (getByIdRoute "2000" []).1 = ⟨404, .errorMsg notFoundMsg⟩ ∧
    notFoundMsg ≠ "Product not found" := by
  decide

/-- C2 (amended): for every integer id with no matching stored row, GetByID,
Update (when its body rules pass, so the handler is reached),
PatchAvailability and Delete all respond 404 with body
`\x7berror: "Producto no encontrado"\x7d` and leave the store unchanged. -/
theorem not_found_responses (idStr : String) (b : ReqBody) (st : List Product)
    (hid : isIntStr idStr = true)
    (habs : findByPk (parseIntStr idStr) st = none)
    (hname : nameErrors b.name = []) (hprice : priceErrors b.price = [])
    (havail : availErrors b.availability = []) :
    getByIdRoute idStr st = (⟨404, .errorMsg notFoundMsg⟩, st) ∧
    putRoute idStr b st = (⟨404, .errorMsg notFoundMsg⟩, st) ∧
    patchRoute idStr st = (⟨404, .errorMsg notFoundMsg⟩, st) ∧
    deleteRoute idStr st = (⟨404, .errorMsg notFoundMsg⟩, st) := by
  refine ⟨?_, ?_, ?_, ?_⟩ <;>
    simp [getByIdRoute, putRoute, patchRoute, deleteRoute, handleInputErrors, idErrors,
          hid, hname, hprice, havail, getProductByID, updateProduct, updateAvailability,
          deleteProduct, habs]

/-- C2 witness: the test suite's concrete non-existent id 2000 on the empty
store, with the valid full-update body used by the tests. -/
theorem not_found_responses_witness :
    (isIntStr "2000" = true ∧ findByPk (parseIntStr "2000") ([] : List Product) = none) ∧
    getByIdRoute "2000" [] = (⟨404, .errorMsg notFoundMsg⟩, []) ∧
    putRoute "2000" ⟨some (.str "Monitor Curvo Actualizado"), some (.num 300),
      some (.boolean true)⟩ [] = (⟨404, .errorMsg notFoundMsg⟩, []) :=
  ⟨⟨by decide, by decide⟩,
   (not_found_responses "2000"
      ⟨some (.str "Monitor Curvo Actualizado"), some (.num 300), some (.boolean true)⟩ []
      (by decide) (by decide) (by decide) (by decide) (by decide)).1,
   (not_found_responses "2000"
      ⟨some (.str "Monitor Curvo Actualizado"), some (.num 300), some (.boolean true)⟩ []
      (by decide) (by decide) (by decide) (by decide) (by decide)).2.1⟩

/-- C3: a POST whose body is missing both name and price is answered 400
with exactly the four errors of the declared rules in declaration order —
name non-empty, price numeric, price present, price greater than zero —
the three overlapping price rules all firing; the store is unchanged. -/
theorem create_missing_fields_four_errors (av : Option JsVal) (st : List Product) :
    createRoute ⟨none, none, av⟩ st =
      (⟨400, .errors [nameMsg, priceNumericMsg, priceEmptyMsg, priceGtMsg]⟩, st) := by
  simp [createRoute, handleInputErrors, nameErrors_none, priceErrors_none]

/-- C4: a PUT on a well-formed integer id with an empty body is answered
400 with exactly the five errors of the declared rules in declaration
order — name, the three price rules, availability; the store is
unchanged. -/
theorem put_empty_body_five_errors (idStr : String) (st : List Product)
    (hid : isIntStr idStr = true) :
    putRoute idStr ⟨none, none, none⟩ st =
      (⟨400, .errors [nameMsg, priceNumericMsg, priceEmptyMsg, priceGtMsg, availMsg]⟩, st) := by
  simp [putRoute, handleInputErrors, idErrors, hid, nameErrors_none, priceErrors_none,
        availErrors_none]

/-- C4 witness: the test suite's concrete PUT `/api/products/1` with the
empty body. -/
theorem put_empty_body_five_errors_witness :
    isIntStr "1" = true ∧
    putRoute "1" ⟨none, none, none⟩ [] =
      (⟨400, .errors [nameMsg, priceNumericMsg, priceEmptyMsg, priceGtMsg, availMsg]⟩, []) :=
  ⟨by decide, put_empty_body_five_errors "1" [] (by decide)⟩

/-- C5 counterexample: the single error reported for a zero price carries
the router's literal message "El precio del producto no es válido", not
"Invalid product price". -/
theorem price_zero_message_counterexample :
    (createRoute ⟨some (.str "Monitor Curvo"), some (.num 0), none⟩ []).1 =
      ⟨400, .errors [priceGtMsg]⟩ ∧
    priceGtMsg ≠ "Invalid product price" := by
  decide

/-- C5 (amended): a POST whose name passes the non-empty rule and whose
price is the number 0 is answered 400 with exactly one error, whose message
is "El precio del producto no es válido"; the store is unchanged. -/
theorem price_zero_single_error (v : JsVal) (av : Option JsVal) (st : List Product)
    (hname : notEmptyCheck (some v) = true) :
    createRoute ⟨some v, some (.num 0), av⟩ st = (⟨400, .errors [priceGtMsg]⟩, st) := by
  simp [createRoute, handleInputErrors, nameErrors, hname, priceErrors_zero]

/-- C5 witness: the test suite's concrete body with name "Monitor Curvo"
and price 0. -/
theorem price_zero_single_error_witness :
    notEmptyCheck (some (.str "Monitor Curvo")) = true ∧
    createRoute ⟨some (.str "Monitor Curvo"), some (.num 0), none⟩ [] =
      (⟨400, .errors [priceGtMsg]⟩, []) :=
  ⟨by decide, price_zero_single_error (.str "Monitor Curvo") none [] (by decide)⟩

/-- C6 counterexample: the price string "1e5" is non-numeric for the
`isNumeric` rule and non-empty, yet the response carries exactly one error,
not two: JavaScript coerces "1e5" to the number 100000, so the custom
`value => v greater than 0` rule passes. -/
theorem price_nonnumeric_two_errors_counterexample :
    isNumericStr "1e5" = false ∧ "1e5" ≠ "" ∧ (jsToNumber "1e5") = .finite 1 5 ∧
    (createRoute ⟨some (.str "Monitor Curvo"), some (.str "1e5"), none⟩ []).1 =
      ⟨400, .errors [priceNumericMsg]⟩ := by
  decide

/-- C6 (amended): a POST whose name passes the non-empty rule and whose
price is a non-empty string failing the numeric rule is answered 400; the
numeric rule fires and the presence rule passes, and the greater-than-zero
rule additionally fires exactly when JavaScript numeric coercion of the
string does not yield a positive value — two errors in that case (as for
"Hola"), one error otherwise (as for "1e5"); the store is unchanged. -/
theorem price_nonnumeric_error_count (v : JsVal) (av : Option JsVal) (s : String)
    (st : List Product) (hname : notEmptyCheck (some v) = true)
    (hnum : isNumericStr s = false) (hne : s ≠ "") :
    createRoute ⟨some v, some (.str s), av⟩ st =
      (⟨400, .errors (priceNumericMsg ::
        (if ((jsToNumber s).isPos) then [] else [priceGtMsg]))⟩, st) := by
  have hlen := notEmptyCheck_str s hne
  simp [createRoute, handleInputErrors, nameErrors, hname, priceErrors, fieldToString,
        hnum, hlen, jsGtZero]

/-- C6 witness: the test suite's concrete body with name "Monitor Curvo"
and price "Hola", which coerces to NaN, so both price errors fire. -/
theorem price_nonnumeric_error_count_witness :
    (notEmptyCheck (some (.str "Monitor Curvo")) = true ∧
     isNumericStr "Hola" = false ∧ "Hola" ≠ "") ∧
    createRoute ⟨some (.str "Monitor Curvo"), some (.str "Hola"), none⟩ [] =
      (⟨400, .errors (priceNumericMsg ::
        (if ((jsToNumber "Hola").isPos) then [] else [priceGtMsg]))⟩, []) :=
  ⟨⟨by decide, by decide, by decide⟩,
   price_nonnumeric_error_count (.str "Monitor Curvo") none "Hola" []
     (by decide) (by decide) (by decide)⟩

/-- C7: a PATCH on the id of a stored product responds 200 with the row
whose availability is the logical NOT of the stored value and persists it;
a second PATCH on the same id responds 200 with the original row and the
store again holds the original row under that id — the operation is an
involution on the availability field. -/
theorem patch_flips_availability_involution (idStr : String) (st : List Product)
    (p : Product) (hid : isIntStr idStr = true)
    (hf : findByPk (parseIntStr idStr) st = some p) :
    (patchRoute idStr st).1 =
      ⟨200, .dataProduct { p with availability := !p.availability }⟩ ∧
    (patchRoute idStr (patchRoute idStr st).2).1 = ⟨200, .dataProduct p⟩ ∧
    findByPk (parseIntStr idStr) (patchRoute idStr (patchRoute idStr st).2).2 = some p := by
  obtain ⟨pid, pname, pprice, pavail⟩ := p
  have hpid : pid = parseIntStr idStr := findByPk_id _ _ _ hf
  have h1 : patchRoute idStr st =
      (⟨200, .dataProduct ⟨pid, pname, pprice, !pavail⟩⟩,
       updateById (parseIntStr idStr) ⟨pid, pname, pprice, !pavail⟩ st) := by
    simp [patchRoute, handleInputErrors, idErrors, hid, updateAvailability, hf]
  have hf2 : findByPk (parseIntStr idStr) (patchRoute idStr st).2 =
      some ⟨pid, pname, pprice, !pavail⟩ := by
    rw [h1]
    exact findByPk_updateById _ _ _ _ hf hpid
  have h2 : patchRoute idStr (patchRoute idStr st).2 =
      (⟨200, .dataProduct ⟨pid, pname, pprice, pavail⟩⟩,
       updateById (parseIntStr idStr) ⟨pid, pname, pprice, pavail⟩
         (patchRoute idStr st).2) := by
    revert hf2
    generalize (patchRoute idStr st).2 = st1
    intro hf2
    simp [patchRoute, handleInputErrors, idErrors, hid, updateAvailability, hf2]
  refine ⟨by rw [h1], by rw [h2], ?_⟩
  rw [h2]
  exact findByPk_updateById _ _ _ _ hf2 hpid

/-- C7 witness: the test suite's PATCH `/api/products/2` on a stored
product with availability true. -/
theorem patch_flips_availability_involution_witness :
    (isIntStr "2" = true ∧
     findByPk (parseIntStr "2") [(⟨2, "Monitor Curvo", 300, true⟩ : Product)] =
       some ⟨2, "Monitor Curvo", 300, true⟩) ∧
    (patchRoute "2" [(⟨2, "Monitor Curvo", 300, true⟩ : Product)]).1 =
      ⟨200, .dataProduct ⟨2, "Monitor Curvo", 300, false⟩⟩ ∧
    (patchRoute "2" (patchRoute "2" [(⟨2, "Monitor Curvo", 300, true⟩ : Product)]).2).1 =
      ⟨200, .dataProduct ⟨2, "Monitor Curvo", 300, true⟩⟩ :=
  ⟨⟨by decide, by decide⟩, by
    have h := patch_flips_availability_involution "2" [⟨2, "Monitor Curvo", 300, true⟩]
      ⟨2, "Monitor Curvo", 300, true⟩ (by decide) (by decide)
    exact ⟨h.1, h.2.1⟩⟩

/-- C8 counterexample: the delete confirmation of the code (pinned by the
repository's tests) is the literal string "Producto eliminado", not
"Product deleted". -/
theorem delete_body_counterexample :
    deleteRoute "1" [(⟨1, "Mouse - Testing", 100, true⟩ : Product)] =
      (⟨200, .dataMsg deletedMsg⟩, []) ∧
    deletedMsg ≠ "Product deleted" := by
  decide

/-- C8 (amended): a DELETE on the id of a stored product removes the rows
carrying that id and responds 200 with data equal to the literal string
"Producto eliminado", and a subsequent GET of the same id on the resulting
store responds 404. -/
theorem delete_removes_row_then_404 (idStr : String) (st : List Product) (p : Product)
    (hid : isIntStr idStr = true)
    (hf : findByPk (parseIntStr idStr) st = some p) :
    deleteRoute idStr st =
      (⟨200, .dataMsg deletedMsg⟩, st.filter (fun q => ¬ (q.id = parseIntStr idStr))) ∧
    getByIdRoute idStr (deleteRoute idStr st).2 =
      (⟨404, .errorMsg notFoundMsg⟩, (deleteRoute idStr st).2) := by
  have h1 : deleteRoute idStr st =
      (⟨200, .dataMsg deletedMsg⟩, st.filter (fun q => ¬ (q.id = parseIntStr idStr))) := by
    simp [deleteRoute, handleInputErrors, idErrors, hid, deleteProduct, hf]
  refine ⟨h1, ?_⟩
  rw [h1]
  simp [getByIdRoute, handleInputErrors, idErrors, hid, getProductByID, findByPk_filter_ne]

/-- C8 witness: the test suite's DELETE `/api/products/1` on a store
holding that product. -/
theorem delete_removes_row_then_404_witness :
    (isIntStr "1" = true ∧
     findByPk (parseIntStr "1") [(⟨1, "Mouse - Testing", 100, true⟩ : Product)] =
       some ⟨1, "Mouse - Testing", 100, true⟩) ∧
    getByIdRoute "1" (deleteRoute "1" [(⟨1, "Mouse - Testing", 100, true⟩ : Product)]).2 =
      (⟨404, .errorMsg notFoundMsg⟩,
       (deleteRoute "1" [(⟨1, "Mouse - Testing", 100, true⟩ : Product)]).2) :=
  ⟨⟨by decide, by decide⟩,
   (delete_removes_row_then_404 "1" [⟨1, "Mouse - Testing", 100, true⟩]
      ⟨1, "Mouse - Testing", 100, true⟩ (by decide) (by decide)).2⟩

/-- C9: the PATCH route validates only the id path parameter and attaches
no body validator, and its handler reads only the path parameter, so two
PATCH requests to the same id against the same store produce identical
responses and identical resulting states whatever their bodies contain. -/
theorem patch_ignores_request_body (idStr : String) (b1 b2 : ReqBody)
    (st : List Product) :
    routeDispatch (.patchAvail idStr b1) st = routeDispatch (.patchAvail idStr b2) st := rfl

/-- C10: the CORS gate rejects every request whose Origin is not strictly
equal to the FRONTEND_URL environment variable — in particular a request
carrying no Origin header while FRONTEND_URL is set — by invoking the
callback with the Error before routing, so such a request never reaches the
router; only requests whose origin equals that single value are handled. -/
theorem cors_rejects_nonmatching_origin (frontendUrl origin : Option String)
    (req : Request) (st : List Product) (h : origin ≠ frontendUrl) :
    serverHandle frontendUrl origin req st = .rejected corsErrMsg ∧
    ∀ resp st2, serverHandle frontendUrl origin req st ≠ .handled resp st2 := by
  have hc : corsOriginAllowed origin frontendUrl = false := by
    simp [corsOriginAllowed]
    exact h
  refine ⟨by simp [serverHandle, hc], ?_⟩
  intro resp st2
  simp [serverHandle, hc]

/-- C10 witness: with FRONTEND_URL set, a request with no Origin header is
rejected before routing. -/
theorem cors_rejects_nonmatching_origin_witness :
    (none : Option String) ≠ some "http://localhost:5173" ∧
    serverHandle (some "http://localhost:5173") none .list [] = .rejected corsErrMsg :=
  ⟨by decide,
   (cors_rejects_nonmatching_origin (some "http://localhost:5173") none .list []
      (by decide)).1⟩
